import Mathlib

/-!
Verification development for the offline cache manager of the
Mainstream Tinting site (source file `sw.js`).

The service worker is shallowly embedded as pure Lean functions.
Modelling conventions, uniform across the file:

* A `Response` keeps only the fields the worker inspects or builds:
  status, content type, and body.
* The cache bucket is an association list from URL-string keys to
  responses; `cache.match` is exact key lookup and `cache.put`
  overwrites the entry for the key.  URL resolution (relative versus
  absolute keys) is abstracted away: requests and bucket keys live in
  the same string space, which no claim depends on.
* One network fetch outcome (`NetResult`) is an input to each handler
  invocation: the fetch either resolves with a `Response` or rejects.
* Async control flow is flattened: each handler maps the request, the
  bucket contents and the fetch outcome to the final settled value of
  the promise it returns (`none` models resolving to `undefined`),
  the bucket contents after all its writes, and whether it touched
  the network.
-/

namespace SW

/-- A fetch API response, restricted to the fields `sw.js` uses:
`status`, the `Content-Type` header, and the body text. -/
structure Response where
  status : Nat
  contentType : String
  body : String
  deriving Repr, DecidableEq

/-- A fetch API request as the worker sees it: `method`, absolute
`url`, and whether `request.mode === "navigate"`. -/
structure Request where
  method : String
  url : String
  isNavigate : Bool
  deriving Repr, DecidableEq

/-- The cache bucket: an association list from URL keys to responses. -/
abbrev Cache := List (String × Response)

/-- `cache.match`: first entry stored under the key, if any. -/
def cacheMatch : Cache → String → Option Response
  | [], _ => none
  | (k, r) :: rest, key => if k == key then some r else cacheMatch rest key

/-- `cache.put`: store `r` under `key`, overwriting any previous entry. -/
def cachePut (cache : Cache) (key : String) (r : Response) : Cache :=
  (key, r) :: cache.filter (fun e => e.fst != key)

/-- `const CACHE_NAME = "mainstream-tinting-v1.2"`. -/
def CACHE_NAME : String := "mainstream-tinting-v1.2"

/-- `const OFFLINE_PAGE = "/offline.html"`. -/
def OFFLINE_PAGE : String := "/offline.html"

/-- `const CACHE_FILES = [...]`, the precache manifest. -/
def CACHE_FILES : List String :=
  ["/", "/index.html", "/residential.html", "/commercial.html",
   "/gallery.html", "/technology.html", "/about.html",
   "/areas-we-serve.html", "/removal.html", "/style.css", "/main.js",
   "/m-logo-new.webp", "/m-logo-new.png", "/favicon-96x96.png",
   "/favicon.svg", "/favicon.ico", "/site.webmanifest", "/robots.txt"]

/-- The three values of `CACHE_STRATEGY`. -/
inductive Strategy where
  | cacheFirst
  | networkFirst
  | staleWhileRevalidate
  deriving Repr, DecidableEq

/-- JavaScript `s.endsWith(suffix)`, modelled on the character lists. -/
def strEndsWith (s suffix : String) : Bool :=
  suffix.data.isSuffixOf s.data

/-- JavaScript `s.startsWith(p)`, modelled on the character lists. -/
def strStartsWith (s p : String) : Bool :=
  p.data.isPrefixOf s.data

/-- The regex test `pathname.match(/\.(css|js|woff2?|ttf)$/)`:
anchored at the end, it holds exactly when the path ends in one of
the five extensions. -/
def matchStyleScriptFont (p : String) : Bool :=
  strEndsWith p ".css" || strEndsWith p ".js" || strEndsWith p ".woff" ||
    strEndsWith p ".woff2" || strEndsWith p ".ttf"

/-- The regex test `pathname.match(/\.(jpg|jpeg|png|gif|webp|svg|ico|mp4)$/)`. -/
def matchImageVideo (p : String) : Bool :=
  strEndsWith p ".jpg" || strEndsWith p ".jpeg" || strEndsWith p ".png" ||
    strEndsWith p ".gif" || strEndsWith p ".webp" || strEndsWith p ".svg" ||
    strEndsWith p ".ico" || strEndsWith p ".mp4"

/-- Strategy selection from the fetch listener: `.html` paths are
network-first, stylesheet, script, font, image and video extensions
are cache-first, and everything else keeps the default
stale-while-revalidate. -/
def classifyPath (p : String) : Strategy :=
  if strEndsWith p ".html" then Strategy.networkFirst
  else if matchStyleScriptFont p then Strategy.cacheFirst
  else if matchImageVideo p then Strategy.cacheFirst
  else Strategy.staleWhileRevalidate

/-- Split an absolute URL at the first occurrence of the literal
`://`, returning the scheme characters and the remainder. -/
def schemeSplit : List Char → Option (List Char × List Char)
  | ':' :: '/' :: '/' :: rest => some ([], rest)
  | c :: rest => (schemeSplit rest).map (fun q => (c :: q.fst, q.snd))
  | [] => none

/-- Character that may appear in the host part of a URL: the host
ends at the first slash, question mark or hash. -/
def hostChar (c : Char) : Bool :=
  c != '/' && c != '?' && c != '#'

/-- The `pathname` of `new URL(url)` for an absolute `http(s)` URL:
everything from the first slash after the host up to the query or
fragment, and `/` when the URL has no path.  Dot-segment and percent
normalisation are abstracted away; no claim depends on them. -/
def urlPathname (url : String) : String :=
  match schemeSplit url.data with
  | none => url
  | some q =>
    let p := (q.snd.dropWhile hostChar).takeWhile (fun c => c != '?' && c != '#')
    if p.isEmpty then "/" else String.mk p

/-- The `origin` of `new URL(url)` for an absolute `http(s)` URL:
the scheme, the separator and the host. -/
def urlOrigin (url : String) : String :=
  match schemeSplit url.data with
  | none => ""
  | some q => String.mk q.fst ++ "://" ++ String.mk (q.snd.takeWhile hostChar)

/-- Outcome of one network fetch: resolve with a response, or reject
(offline, DNS failure, timeout). -/
inductive NetResult where
  | ok (r : Response)
  | err
  deriving Repr, DecidableEq

/-- Settled result of one strategy handler call: the value its
promise resolves with (`none` models `undefined`), the bucket
contents after its writes, and whether it called `fetch`. -/
structure HandlerOutcome where
  response : Option Response
  cache : Cache
  usedNetwork : Bool
  deriving Repr, DecidableEq

/-- The synthesized failure response
`new Response("Network error", 408, text/plain)`. -/
def networkErrorResponse : Response :=
  { status := 408, contentType := "text/plain", body := "Network error" }

/-- The navigation-failure fallback expression shared by all three
handlers:

`cache.match(OFFLINE_PAGE) || cache.match("/index.html") || new Response(...)`

In JavaScript `cache.match` returns a promise object and every
promise is truthy, so `||` short-circuits on its first operand;
awaiting the returned value therefore yields the result of
`cache.match(OFFLINE_PAGE)` alone, which is `undefined` (`none`)
whenever the offline page is not in the bucket.  The home-page lookup
and the synthesized offline notice are unreachable. -/
def navFallback (cache : Cache) : Option Response :=
  cacheMatch cache OFFLINE_PAGE

/-- `handleCacheFirst`: serve from the bucket when possible; on a
miss fetch, store a copy when the status is exactly 200, and return
the live response; on fetch rejection run the navigation fallback or
synthesize the 408 error. -/
def handleCacheFirst (req : Request) (cache : Cache) (net : NetResult) :
    HandlerOutcome :=
  match cacheMatch cache req.url with
  | some cached => { response := some cached, cache := cache, usedNetwork := false }
  | none =>
    match net with
    | NetResult.ok r =>
      if r.status == 200 then
        { response := some r, cache := cachePut cache req.url r, usedNetwork := true }
      else
        { response := some r, cache := cache, usedNetwork := true }
    | NetResult.err =>
      if req.isNavigate then
        { response := navFallback cache, cache := cache, usedNetwork := true }
      else
        { response := some networkErrorResponse, cache := cache, usedNetwork := true }

/-- `handleNetworkFirst`: fetch first, store a copy on status 200 and
return the live response; on rejection fall back to the bucket, then
to the navigation fallback or the synthesized 408 error. -/
def handleNetworkFirst (req : Request) (cache : Cache) (net : NetResult) :
    HandlerOutcome :=
  match net with
  | NetResult.ok r =>
    if r.status == 200 then
      { response := some r, cache := cachePut cache req.url r, usedNetwork := true }
    else
      { response := some r, cache := cache, usedNetwork := true }
  | NetResult.err =>
    match cacheMatch cache req.url with
    | some cached => { response := some cached, cache := cache, usedNetwork := true }
    | none =>
      if req.isNavigate then
        { response := navFallback cache, cache := cache, usedNetwork := true }
      else
        { response := some networkErrorResponse, cache := cache, usedNetwork := true }

/-- `handleStaleWhileRevalidate`: read the bucket, start a background
fetch whose `.then` stores status-200 responses and whose `.catch`
swallows rejection by resolving with `undefined`; return the cached
entry when one existed, otherwise await the background promise.
Because the internal `.catch` already converted a rejection into
`undefined`, the `try`/`catch` around that final await can never
fire, so on a miss with a failed fetch the handler resolves with
`undefined` (`none`). -/
def handleStaleWhileRevalidate (req : Request) (cache : Cache) (net : NetResult) :
    HandlerOutcome :=
  let cacheAfter :=
    match net with
    | NetResult.ok r => if r.status == 200 then cachePut cache req.url r else cache
    | NetResult.err => cache
  match cacheMatch cache req.url with
  | some cached => { response := some cached, cache := cacheAfter, usedNetwork := true }
  | none =>
    match net with
    | NetResult.ok r => { response := some r, cache := cacheAfter, usedNetwork := true }
    | NetResult.err => { response := none, cache := cacheAfter, usedNetwork := true }

/-- `handleRequest`: dispatch on the strategy tag; the `default`
branch of the `switch` is stale-while-revalidate. -/
def handleRequest (req : Request) (strategy : Strategy) (cache : Cache)
    (net : NetResult) : HandlerOutcome :=
  match strategy with
  | Strategy.cacheFirst => handleCacheFirst req cache net
  | Strategy.networkFirst => handleNetworkFirst req cache net
  | Strategy.staleWhileRevalidate => handleStaleWhileRevalidate req cache net

/-- Strategy chosen by the fetch listener for a request it handles. -/
def requestStrategy (req : Request) : Strategy :=
  classifyPath (urlPathname req.url)

/-- Result of the fetch listener for one intercepted request:
whether `event.respondWith` was called, the value the supplied
promise settles with, and the bucket contents afterwards. -/
structure DispatchResult where
  handled : Bool
  response : Option Response
  cache : Cache
  deriving Repr, DecidableEq

/-- The fetch listener: skip non-GET requests, skip requests whose
URL does not start with `self.location.origin` (a string-prefix
test), otherwise classify the pathname and respond with the matching
handler. -/
def onFetch (selfOrigin : String) (req : Request) (cache : Cache)
    (net : NetResult) : DispatchResult :=
  if req.method != "GET" then
    { handled := false, response := none, cache := cache }
  else if !(strStartsWith req.url selfOrigin) then
    { handled := false, response := none, cache := cache }
  else
    let out := handleRequest req (requestStrategy req) cache net
    { handled := true, response := out.response, cache := out.cache }

/-- Outcome of the install listener: whether the promise handed to
`event.waitUntil` rejects, whether `self.skipWaiting` was invoked,
and the bucket contents afterwards. -/
structure InstallOutcome where
  promiseRejected : Bool
  skipWaitingCalled : Bool
  bucket : Cache
  deriving Repr, DecidableEq

/-- The `Response.ok` test used by `cache.addAll`: status in the
2xx range. -/
def responseOk (r : Response) : Bool :=
  decide (200 ≤ r.status) && decide (r.status ≤ 299)

/-- Whether fetching `u` on the given network yields an ok response. -/
def fetchOk (net : String → NetResult) (u : String) : Bool :=
  match net u with
  | NetResult.ok r => responseOk r
  | NetResult.err => false

/-- `cache.addAll(CACHE_FILES)` resolves exactly when every manifest
URL fetches successfully with an ok status; otherwise it rejects. -/
def addAllSucceeds (net : String → NetResult) : Bool :=
  CACHE_FILES.all (fetchOk net)

/-- Bucket contents produced by a successful `addAll`: every
manifest URL stored under its own key. -/
def precache (net : String → NetResult) : Cache :=
  CACHE_FILES.foldl
    (fun c u =>
      match net u with
      | NetResult.ok r => cachePut c u r
      | NetResult.err => c)
    []

/-- The install listener.  The promise chain handed to
`event.waitUntil` is `caches.open(CACHE_NAME)` then
`cache.addAll(CACHE_FILES)` then `self.skipWaiting()`, followed by a
`.catch` that only logs the error.  The catch converts any rejection
of the chain into a resolution, so the promise given to the browser
never rejects; when `addAll` rejects, `skipWaiting` is skipped and
the bucket stays as `caches.open` created it. -/
def onInstall (net : String → NetResult) : InstallOutcome :=
  if addAllSucceeds net then
    { promiseRejected := false, skipWaitingCalled := true, bucket := precache net }
  else
    { promiseRejected := false, skipWaitingCalled := false, bucket := [] }

/-- The activate listener: over `caches.keys()` it deletes every
bucket whose name differs from `CACHE_NAME`; the result is the list
of surviving bucket names. -/
def onActivate (buckets : List String) : List String :=
  buckets.filter (fun name => name == CACHE_NAME)

/-- Bucket names that begin with the naming prefix of this app,
from the wording of the spec invariant on bucket singularity. -/
def hasAppPrefix (name : String) : Bool :=
  strStartsWith name "mainstream-tinting-"

/-! ### Helper lemmas -/

/-- Two incomparable suffix patterns cannot both match the end of
the same string. -/
theorem strEndsWith_excl {p a b : String}
    (hab : ¬ a.data <:+ b.data) (hba : ¬ b.data <:+ a.data)
    (ha : strEndsWith p a = true) : strEndsWith p b = false := by
  rw [strEndsWith, List.isSuffixOf_iff_suffix] at ha
  rw [strEndsWith, Bool.eq_false_iff]
  intro hb
  rw [List.isSuffixOf_iff_suffix] at hb
  rcases List.suffix_or_suffix_of_suffix ha hb with h | h
  · exact hab h
  · exact hba h

/-- A path with a stylesheet, script or font extension does not end
in the html extension. -/
theorem matchStyleScriptFont_not_html {p : String}
    (h : matchStyleScriptFont p = true) : strEndsWith p ".html" = false := by
  rw [matchStyleScriptFont] at h
  simp only [Bool.or_eq_true] at h
  rcases h with (((h | h) | h) | h) | h
  all_goals exact strEndsWith_excl (by decide) (by decide) h

/-- A path with an image or video extension does not end in the
html extension. -/
theorem matchImageVideo_not_html {p : String}
    (h : matchImageVideo p = true) : strEndsWith p ".html" = false := by
  rw [matchImageVideo] at h
  simp only [Bool.or_eq_true] at h
  rcases h with ((((((h | h) | h) | h) | h) | h) | h) | h
  all_goals exact strEndsWith_excl (by decide) (by decide) h

/-- Lookup after `cache.put` under the same key yields the stored
response. -/
theorem cacheMatch_cachePut_self (cache : Cache) (key : String) (r : Response) :
    cacheMatch (cachePut cache key r) key = some r := by
  simp [cachePut, cacheMatch]

/-! ### Claim theorems -/

/-- C1 counterexample: a bare navigation, a GET navigation request
for the site root, is classified STALE_WHILE_REVALIDATE by the code,
not NETWORK_FIRST as the claim states: the classifier looks only at
the pathname extension and has no navigation case. -/
theorem bareNavigation_gets_default_strategy :
    requestStrategy { method := "GET", url := "https://example.com/", isNavigate := true } =
      Strategy.staleWhileRevalidate ∧
    Strategy.staleWhileRevalidate ≠ Strategy.networkFirst := by
  decide

/-- C1 (amended): for every intercepted same-origin GET request the
strategy is a pure function of the request pathname: a path ending
in html is NETWORK_FIRST; a path ending in one of the stylesheet,
script, font, image or video extensions is CACHE_FIRST,
unconditionally, since none of those extensions can coincide with
the html test; every other path, bare navigations included, is
STALE_WHILE_REVALIDATE. -/
theorem requestStrategy_classification (req : Request) :
    (strEndsWith (urlPathname req.url) ".html" = true →
      requestStrategy req = Strategy.networkFirst) ∧
    ((matchStyleScriptFont (urlPathname req.url) ||
        matchImageVideo (urlPathname req.url)) = true →
      requestStrategy req = Strategy.cacheFirst) ∧
    (strEndsWith (urlPathname req.url) ".html" = false →
      matchStyleScriptFont (urlPathname req.url) = false →
      matchImageVideo (urlPathname req.url) = false →
      requestStrategy req = Strategy.staleWhileRevalidate) := by
  refine ⟨?_, ?_, ?_⟩
  · intro h
    simp [requestStrategy, classifyPath, h]
  · intro h
    simp only [Bool.or_eq_true] at h
    rcases h with hs | hi
    · simp [requestStrategy, classifyPath, matchStyleScriptFont_not_html hs, hs]
    · cases hA : matchStyleScriptFont (urlPathname req.url) with
      | true => simp [requestStrategy, classifyPath, matchStyleScriptFont_not_html hA, hA]
      | false => simp [requestStrategy, classifyPath, matchImageVideo_not_html hi, hA, hi]
  · intro h1 h2 h3
    simp [requestStrategy, classifyPath, h1, h2, h3]

/-- C1 witness: the amended classification applied to one concrete
request of each kind. -/
theorem requestStrategy_classification_witness :
    requestStrategy { method := "GET", url := "https://example.com/about.html", isNavigate := true } =
      Strategy.networkFirst ∧
    requestStrategy { method := "GET", url := "https://example.com/m-logo-new.webp", isNavigate := false } =
      Strategy.cacheFirst ∧
    requestStrategy { method := "GET", url := "https://example.com/site.webmanifest", isNavigate := false } =
      Strategy.staleWhileRevalidate :=
  ⟨(requestStrategy_classification _).1 (by decide),
   (requestStrategy_classification _).2.1 (by decide),
   (requestStrategy_classification _).2.2 (by decide) (by decide) (by decide)⟩

/-- C2: evaluating the install chain on a network where every
precache fetch rejects: `addAll` fails, yet the promise handed to
`event.waitUntil` still resolves, because the final catch in the
chain swallows the rejection after logging it.  The install step
therefore succeeds and the browser is not prevented from activating
the new version; only `skipWaiting` is skipped.  This contradicts
the claim that the lifecycle promise rejects and the new version
never activates. -/
theorem install_failure_swallowed :
    addAllSucceeds (fun _ => NetResult.err) = false ∧
    (onInstall (fun _ => NetResult.err)).promiseRejected = false ∧
    (onInstall (fun _ => NetResult.err)).skipWaitingCalled = false := by
  decide

/-- C3: evaluation at the failing input: a navigation request that
misses the bucket while the fetch rejects, with the offline page
absent but the home page cached.  Both the cache-first and the
network-first handler resolve with `undefined` instead of the cached
home page, because the fallback expression short-circuits on the
first promise, `cache.match(OFFLINE_PAGE)`. -/
theorem navigationFallback_resolves_undefined :
    (handleCacheFirst { method := "GET", url := "/uncached-page", isNavigate := true }
        [("/index.html", { status := 200, contentType := "text/html", body := "home" })]
        NetResult.err).response = none ∧
    (handleNetworkFirst { method := "GET", url := "/uncached-page", isNavigate := true }
        [("/index.html", { status := 200, contentType := "text/html", body := "home" })]
        NetResult.err).response = none ∧
    cacheMatch [("/index.html", { status := 200, contentType := "text/html", body := "home" })]
        "/index.html" =
      some { status := 200, contentType := "text/html", body := "home" } := by
  decide

/-- C4: evaluation at the failing input: in the
stale-while-revalidate handler, with no cached entry and a rejecting
fetch, the internal catch on the background promise converts the
rejection into a resolution with `undefined`, so the awaited promise
resolves to `undefined` and the synthesized-error branch is dead
code.  The handler resolves with `undefined` for both a
non-navigation and a navigation request, contradicting the claim
that a proper response is always returned. -/
theorem swr_miss_offline_resolves_undefined :
    (handleStaleWhileRevalidate { method := "GET", url := "/api/quote", isNavigate := false }
        [] NetResult.err).response = none ∧
    (handleStaleWhileRevalidate { method := "GET", url := "/brochure", isNavigate := true }
        [] NetResult.err).response = none := by
  decide

/-- C5 counterexample: an activate cycle started with only an
old-version bucket in storage and the current bucket absent ends
with zero buckets carrying the app naming prefix, not exactly one:
the activate listener only deletes, it never creates the current
bucket. -/
theorem activate_without_current_bucket :
    hasAppPrefix "mainstream-tinting-v1.1" = true ∧
    onActivate ["mainstream-tinting-v1.1"] = [] ∧
    (onActivate ["mainstream-tinting-v1.1"]).countP hasAppPrefix = 0 := by
  decide

/-- C5 (amended): after an activate cycle, every bucket whose name
differs from the current version bucket name has been deleted; when
the starting bucket names are distinct and include the current
bucket, as they do after any install, since install opens the
current bucket first, exactly the current bucket survives, so
exactly one bucket with the app naming prefix exists. -/
theorem activate_purges_stale_buckets (buckets : List String)
    (hnd : buckets.Nodup) (hmem : CACHE_NAME ∈ buckets) :
    onActivate buckets = [CACHE_NAME] ∧
    (onActivate buckets).countP hasAppPrefix = 1 := by
  have h1 : onActivate buckets = [CACHE_NAME] := by
    rw [onActivate, List.filter_beq buckets CACHE_NAME,
      List.count_eq_one_of_mem hnd hmem, List.replicate_one]
  exact ⟨h1, by rw [h1]; decide⟩

/-- C5 witness: the amended purge on a storage seeded with an
old-version bucket plus the current bucket. -/
theorem activate_purges_stale_buckets_witness :
    onActivate ["mainstream-tinting-v1.1", "mainstream-tinting-v1.2"] =
      ["mainstream-tinting-v1.2"] :=
  (activate_purges_stale_buckets _ (by decide) (by decide)).1

/-- C6: in the stale-while-revalidate handler, whenever the bucket
holds an entry for the request, that entry is what the handler
resolves with, for every possible outcome of the background fetch,
the rejecting one included: the returned value never depends on the
network and a background failure never surfaces to the caller. -/
theorem swr_returns_cached_entry (req : Request) (cache : Cache) (c : Response)
    (h : cacheMatch cache req.url = some c) (net : NetResult) :
    (handleStaleWhileRevalidate req cache net).response = some c := by
  simp [handleStaleWhileRevalidate, h]

/-- C6 witness: a cached gallery entry is returned although the
background fetch rejects. -/
theorem swr_returns_cached_entry_witness :
    (handleStaleWhileRevalidate { method := "GET", url := "/gallery-data", isNavigate := false }
        [("/gallery-data", { status := 200, contentType := "application/json", body := "old" })]
        NetResult.err).response =
      some { status := 200, contentType := "application/json", body := "old" } :=
  swr_returns_cached_entry _ _ _ (by decide) NetResult.err

/-- C7: in the network-first handler, a fetch resolving with status
200 stores a copy in the bucket under the request key and the live
response is returned; a rejecting fetch with a cached entry for this
exact request returns that cached entry, leaving the bucket
unchanged. -/
theorem networkFirst_fresh_and_fallback (req : Request) (cache : Cache) :
    (∀ r : Response, r.status = 200 →
      (handleNetworkFirst req cache (NetResult.ok r)).response = some r ∧
      cacheMatch (handleNetworkFirst req cache (NetResult.ok r)).cache req.url = some r) ∧
    (∀ c : Response, cacheMatch cache req.url = some c →
      (handleNetworkFirst req cache NetResult.err).response = some c ∧
      (handleNetworkFirst req cache NetResult.err).cache = cache) := by
  constructor
  · intro r hr
    constructor
    · simp [handleNetworkFirst, hr]
    · simp [handleNetworkFirst, hr, cacheMatch_cachePut_self]
  · intro c hc
    constructor
    · simp [handleNetworkFirst, hc]
    · simp [handleNetworkFirst, hc]

/-- C7 witness: a fresh 200 response replaces the stale copy and is
returned; with the network down the stale copy is served. -/
theorem networkFirst_fresh_and_fallback_witness :
    (handleNetworkFirst { method := "GET", url := "/about.html", isNavigate := true }
        [("/about.html", { status := 200, contentType := "text/html", body := "old" })]
        (NetResult.ok { status := 200, contentType := "text/html", body := "fresh" })).response =
      some { status := 200, contentType := "text/html", body := "fresh" } ∧
    (handleNetworkFirst { method := "GET", url := "/about.html", isNavigate := true }
        [("/about.html", { status := 200, contentType := "text/html", body := "old" })]
        NetResult.err).response =
      some { status := 200, contentType := "text/html", body := "old" } :=
  ⟨((networkFirst_fresh_and_fallback _ _).1 _ rfl).1,
   ((networkFirst_fresh_and_fallback _ _).2 _ (by decide)).1⟩

/-- C8: in the cache-first handler a cached entry is returned as is,
with no network use and no bucket write; hence a second call for the
same request returns the same response and again performs no network
I/O, whatever the network would have answered either time. -/
theorem cacheFirst_hit_idempotent (req : Request) (cache : Cache) (c : Response)
    (h : cacheMatch cache req.url = some c) (net net2 : NetResult) :
    handleCacheFirst req cache net =
      { response := some c, cache := cache, usedNetwork := false } ∧
    handleCacheFirst req (handleCacheFirst req cache net).cache net2 =
      { response := some c, cache := cache, usedNetwork := false } := by
  have h1 : handleCacheFirst req cache net =
      { response := some c, cache := cache, usedNetwork := false } := by
    simp [handleCacheFirst, h]
  refine ⟨h1, ?_⟩
  rw [h1]
  simp [handleCacheFirst, h]

/-- C8 witness: two consecutive cache-first calls for a cached
stylesheet both return the cached copy without touching the
network. -/
theorem cacheFirst_hit_idempotent_witness :
    handleCacheFirst { method := "GET", url := "/style.css", isNavigate := false }
        [("/style.css", { status := 200, contentType := "text/css", body := "css" })]
        NetResult.err =
      { response := some { status := 200, contentType := "text/css", body := "css" },
        cache := [("/style.css", { status := 200, contentType := "text/css", body := "css" })],
        usedNetwork := false } :=
  (cacheFirst_hit_idempotent _ _ _ (by decide) NetResult.err NetResult.err).1

/-- C9: evaluation at the failing input: the origin guard is the
string test `url.startsWith(self.location.origin)`, so a GET request
to a different origin whose URL text merely begins with the app
origin, here `https://example.com.evil.test` against the app origin
`https://example.com`, is not passed through: it is classified,
handled, and its 200 response is written into the bucket,
contradicting the claim that requests from a different origin are
never handled or cached. -/
theorem crossOrigin_prefixed_url_cached :
    urlOrigin "https://example.com.evil.test/style.css" ≠ "https://example.com" ∧
    (onFetch "https://example.com"
        { method := "GET", url := "https://example.com.evil.test/style.css", isNavigate := false }
        [] (NetResult.ok { status := 200, contentType := "text/css", body := "x" })).handled =
      true ∧
    cacheMatch
        (onFetch "https://example.com"
          { method := "GET", url := "https://example.com.evil.test/style.css", isNavigate := false }
          [] (NetResult.ok { status := 200, contentType := "text/css", body := "x" })).cache
        "https://example.com.evil.test/style.css" =
      some { status := 200, contentType := "text/css", body := "x" } := by
  decide

/-- C10: a fetch resolving with any status other than 200 leaves the
bucket of each of the three handlers unchanged; the network-first
handler still returns that response, and so do the cache-first and
the stale-while-revalidate handlers whenever no cached entry
existed. -/
theorem non200_leaves_bucket_unchanged (req : Request) (cache : Cache) (r : Response)
    (h : r.status ≠ 200) :
    (handleCacheFirst req cache (NetResult.ok r)).cache = cache ∧
    (handleNetworkFirst req cache (NetResult.ok r)).cache = cache ∧
    (handleStaleWhileRevalidate req cache (NetResult.ok r)).cache = cache ∧
    (handleNetworkFirst req cache (NetResult.ok r)).response = some r ∧
    (cacheMatch cache req.url = none →
      (handleCacheFirst req cache (NetResult.ok r)).response = some r ∧
      (handleStaleWhileRevalidate req cache (NetResult.ok r)).response = some r) := by
  have hb : (r.status == 200) = false := by simp [h]
  cases hm : cacheMatch cache req.url with
  | some c =>
    refine ⟨?_, ?_, ?_, ?_, ?_⟩ <;>
      simp [handleCacheFirst, handleNetworkFirst, handleStaleWhileRevalidate, hm, hb]
  | none =>
    refine ⟨?_, ?_, ?_, ?_, ?_⟩ <;>
      simp [handleCacheFirst, handleNetworkFirst, handleStaleWhileRevalidate, hm, hb]

/-- C10 witness: a 404 for a missing page is returned by the
network-first handler and nothing is written to an empty bucket. -/
theorem non200_leaves_bucket_unchanged_witness :
    (handleNetworkFirst { method := "GET", url := "/gone.html", isNavigate := true } []
        (NetResult.ok { status := 404, contentType := "text/html", body := "nf" })).cache =
      [] ∧
    (handleNetworkFirst { method := "GET", url := "/gone.html", isNavigate := true } []
        (NetResult.ok { status := 404, contentType := "text/html", body := "nf" })).response =
      some { status := 404, contentType := "text/html", body := "nf" } :=
  ⟨(non200_leaves_bucket_unchanged _ _ _ (by decide)).2.1,
   (non200_leaves_bucket_unchanged _ _ _ (by decide)).2.2.2.1⟩

end SW
